import Mathlib

/-!
Verification of the geomocker boundary lookup (`src/main.go`).

The Go source defines a GeoJSON-like data model (`Feature`, `FeatureCollection`),
a ray-casting point-in-polygon test (`isPointInPolygon`, main.go:148-169) and a
lookup (`findArea`, main.go:123-145) that reads `areas.json`, parses it, and
returns the name of the first feature whose first ring contains the query point,
or `""` when none does or when the read/parse fails.

Embedding choices:
  * `float64` is modelled by `ℚ` (exact linear arithmetic; all comparisons and
    the interpolation formula carry over verbatim, with the division guarded by
    `p1y ≠ p2y` exactly as in the source).
  * A vertex `[]float64` accessed at indices 0 and 1 is modelled as `ℚ × ℚ`.
  * Go runtime panics (index out of range on `polygon[0]` /
    `feature.Geometry.Coordinates[0]`, and `i % 0`) are modelled by `Option`:
    `none` is a panic, `some v` a normal return of `v`.
  * The `ioutil.ReadFile` / `json.Unmarshal` steps are modelled abstractly by a
    `Resource` that is unreadable, malformed, or a parsed `FeatureCollection`;
    the source returns `""` in the two error cases (main.go:124-135).
-/

/-- `Feature.Properties` from main.go:24-26: only a `name` field is declared;
no `id` field exists in this revision, so any `id` in the backing document is
dropped by parsing. -/
structure Properties where
  name : String
  deriving Repr, DecidableEq

/-- `Polygon` from main.go:18-21: `Coordinates [][][]float64` and a type tag. -/
structure Polygon where
  coordinates : List (List (ℚ × ℚ))
  type : String
  deriving Repr, DecidableEq

/-- `Feature` from main.go:23-29. -/
structure Feature where
  properties : Properties
  geometry : Polygon
  type : String
  deriving Repr, DecidableEq

/-- `FeatureCollection` from main.go:31-34. -/
structure FeatureCollection where
  features : List Feature
  type : String
  deriving Repr, DecidableEq

/-- Abstract state of the backing resource `areas.json` as seen by
`findArea` (main.go:124-135): the read fails, the unmarshal fails, or a parsed
collection is obtained. -/
inductive Resource where
  | unreadable
  | malformed
  | ok (fc : FeatureCollection)
  deriving Repr, DecidableEq

/-- One iteration of the edge loop of `isPointInPolygon` (main.go:154-166),
with the nested `if` structure of the source: given the current `inside` flag
and the edge `(p1, p2)`, return the new `inside` flag. -/
def edgeStep (lng lat : ℚ) (inside : Bool) (p1 p2 : ℚ × ℚ) : Bool :=
  if lat > min p1.2 p2.2 then
    if lat ≤ max p1.2 p2.2 then
      if lng ≤ max p1.1 p2.1 then
        if p1.2 ≠ p2.2 then
          if p1.1 = p2.1 ∨ lng ≤ (lat - p1.2) * (p2.1 - p1.1) / (p2.2 - p1.2) + p1.1 then
            !inside
          else inside
        else inside
      else inside
    else inside
  else inside

/-- `isPointInPolygon` from main.go:148-169. `n := len(polygon)`;
`p1 := polygon[0]` (a panic, `none`, when the ring is empty — in Go both
`polygon[0]` and `i % 0` fault); then `n+1` iterations with `p2 := polygon[i % n]`
and `p1` advanced to `p2` each step; the final `inside` flag is returned. -/
def isPointInPolygon (lng lat : ℚ) (polygon : List (ℚ × ℚ)) : Option Bool :=
  match polygon with
  | [] => none
  | v0 :: _ =>
    some (((List.range (polygon.length + 1)).foldl
      (fun st i =>
        let p2 := polygon.getD (i % polygon.length) (0, 0)
        (edgeStep lng lat st.1 st.2 p2, p2))
      (false, v0)).1)

/-- The feature loop of `findArea` (main.go:137-144): for each feature in order,
call `isPointInPolygon lng lat feature.Geometry.Coordinates[0]` — a panic
(`none`) when `Coordinates` is empty — returning the feature's name on the first
containing feature, and `""` after the last. -/
def findAreaGo (lng lat : ℚ) : List Feature → Option String
  | [] => some ""
  | f :: rest =>
    match f.geometry.coordinates with
    | [] => none
    | ring :: _ =>
      match isPointInPolygon lng lat ring with
      | none => none
      | some true => some f.properties.name
      | some false => findAreaGo lng lat rest

/-- `findArea` from main.go:123-145: `""` when the resource cannot be read or
parsed, otherwise the first-match scan over the parsed features. -/
def findArea (res : Resource) (lng lat : ℚ) : Option String :=
  match res with
  | .unreadable => some ""
  | .malformed => some ""
  | .ok fc => findAreaGo lng lat fc.features

/-- The toggle condition of one edge-step, written from the specification's
wording (spec §4.2): the point's latitude lies strictly above
`min(p1.lat, p2.lat)` and at or below `max(p1.lat, p2.lat)`, its longitude at or
below `max(p1.lng, p2.lng)`, the edge is not horizontal, and the edge is
vertical or the longitude is at or below the interpolated `xIntersect`. -/
def specToggle (lng lat : ℚ) (p1 p2 : ℚ × ℚ) : Bool :=
  decide (min p1.2 p2.2 < lat ∧ lat ≤ max p1.2 p2.2 ∧ lng ≤ max p1.1 p2.1 ∧
    p1.2 ≠ p2.2 ∧ (p1.1 = p2.1 ∨ lng ≤ (lat - p1.2) * (p2.1 - p1.1) / (p2.2 - p1.2) + p1.1))

/-- The ray-casting run described by the specification (spec §4.2): `N + 1`
edge-steps with wrapping index `i mod N` starting from vertex 0, each step
toggling the `inside` flag exactly when `specToggle` holds and advancing
`p1 ← p2`; the final flag is the containment result. -/
def specRayCast (lng lat : ℚ) (ring : List (ℚ × ℚ)) : Bool :=
  (((List.range (ring.length + 1)).foldl
    (fun st i =>
      let p2 := ring.getD (i % ring.length) (0, 0)
      (xor st.1 (specToggle lng lat st.2 p2), p2))
    (false, ring.getD 0 (0, 0))).1)

/-- Modelled from the spec (§6): a feature of the backing document carries a
`name`, an optional `id` (defaulting to the empty string when absent) and the
geometry's rings. The `id` field is absent from the `Feature` struct of the
revision in src, so this spec-level record is needed to even state claims that
mention the `id`. -/
structure SpecFeature where
  name : String
  id : String
  coordinates : List (List (ℚ × ℚ))
  deriving Repr, DecidableEq

/-- Modelled from the spec (§4.2, §7): a region contains the point when its
first ring exists, has at least 3 vertices and the ray cast reports inside;
a degenerate region (fewer than 3 vertices, empty or missing first ring) is
non-matching. -/
def specContains (lng lat : ℚ) (f : SpecFeature) : Bool :=
  match f.coordinates with
  | [] => false
  | ring :: _ => if ring.length < 3 then false else specRayCast lng lat ring

/-- Modelled from the spec (§4.2): the lookup contract `locate`, returning the
name and id of the first containing region in dataset order, and `("", "")`
when none contains the point. -/
def locateSpec (lng lat : ℚ) : List SpecFeature → String × String
  | [] => ("", "")
  | f :: rest => if specContains lng lat f then (f.name, f.id) else locateSpec lng lat rest

/-- What the parsing of the revision in src retains of a spec-level feature:
the `Feature` struct (main.go:23-29) has no `id` field, so the id is dropped. -/
def eraseId (f : SpecFeature) : Feature :=
  ⟨⟨f.name⟩, ⟨f.coordinates, "Polygon"⟩, "Feature"⟩

/-- The parsed collection the code obtains from a spec-level dataset. -/
def fcOf (ds : List SpecFeature) : FeatureCollection :=
  ⟨ds.map eraseId, "FeatureCollection"⟩

-- sanity: unit square, interior point
example : isPointInPolygon 1 1 [(0, 0), (2, 0), (2, 2), (0, 2)] = some true := by decide
example : isPointInPolygon 5 1 [(0, 0), (2, 0), (2, 2), (0, 2)] = some false := by decide
example : isPointInPolygon 1 1 [] = none := by decide

/-! ## Helper lemmas -/

/-- An xor with a decided proposition is an `if` on that proposition. -/
lemma xor_decide_eq_ite (b : Bool) (P : Prop) [Decidable P] :
    xor b (decide P) = if P then !b else b := by
  by_cases h : P <;> simp [h]

/-- The nested-`if` edge-step of the source equals an xor with the
specification's toggle condition. -/
lemma edgeStep_eq_xor (lng lat : ℚ) (b : Bool) (p1 p2 : ℚ × ℚ) :
    edgeStep lng lat b p1 p2 = xor b (specToggle lng lat p1 p2) := by
  unfold edgeStep specToggle
  rw [xor_decide_eq_ite]
  simp only [gt_iff_lt]
  split_ifs <;> tauto

/-- A self-edge (`p1 = p2`) never toggles. -/
lemma specToggle_self (lng lat : ℚ) (p : ℚ × ℚ) :
    specToggle lng lat p p = false := by
  simp [specToggle]

/-- The interpolated crossing longitude does not depend on the orientation of
the edge. -/
lemma xinters_symm (lat x1 y1 x2 y2 : ℚ) (h : y1 ≠ y2) :
    (lat - y1) * (x2 - x1) / (y2 - y1) + x1 = (lat - y2) * (x1 - x2) / (y1 - y2) + x2 := by
  have h1 : y2 - y1 ≠ 0 := sub_ne_zero.mpr (Ne.symm h)
  have h2 : y1 - y2 ≠ 0 := sub_ne_zero.mpr h
  field_simp
  ring

/-- The toggle condition is symmetric in the edge's endpoints. -/
lemma specToggle_symm (lng lat : ℚ) (p1 p2 : ℚ × ℚ) :
    specToggle lng lat p1 p2 = specToggle lng lat p2 p1 := by
  unfold specToggle
  rw [decide_eq_decide]
  rw [min_comm p1.2 p2.2, max_comm p1.2 p2.2, max_comm p1.1 p2.1]
  constructor
  · rintro ⟨h1, h2, h3, h4, h5⟩
    refine ⟨h1, h2, h3, h4.symm, ?_⟩
    rcases h5 with h5 | h5
    · exact Or.inl h5.symm
    · exact Or.inr (by rw [← xinters_symm lat p1.1 p1.2 p2.1 p2.2 h4]; exact h5)
  · rintro ⟨h1, h2, h3, h4, h5⟩
    refine ⟨h1, h2, h3, h4.symm, ?_⟩
    rcases h5 with h5 | h5
    · exact Or.inl h5.symm
    · exact Or.inr (by rw [xinters_symm lat p1.1 p1.2 p2.1 p2.2 h4.symm]; exact h5)

/-- The source's point-in-polygon loop computes exactly the specification's
ray cast on any nonempty ring. -/
lemma ray_eq_spec (lng lat : ℚ) (ring : List (ℚ × ℚ)) (h : ring ≠ []) :
    isPointInPolygon lng lat ring = some (specRayCast lng lat ring) := by
  cases ring with
  | nil => exact absurd rfl h
  | cons v0 rest =>
    simp only [isPointInPolygon]
    unfold specRayCast
    have h0 : (v0 :: rest).getD 0 (0, 0) = v0 := rfl
    rw [h0]
    refine congrArg some (congrArg Prod.fst (List.foldl_ext _ _ _ ?_))
    intro st i _
    simp only [edgeStep_eq_xor]

/-- A one-vertex ring is never reported as containing: both edge-steps run on
the self-edge `(v, v)`, which never toggles. -/
lemma ray_singleton (lng lat : ℚ) (v : ℚ × ℚ) :
    isPointInPolygon lng lat [v] = some false := by
  have hstep : ∀ b : Bool, edgeStep lng lat b v v = b := by
    intro b
    rw [edgeStep_eq_xor, specToggle_self, Bool.xor_false]
  unfold isPointInPolygon
  simp only [List.length_cons, List.length_nil, List.range_succ, List.range_zero,
    List.foldl_append, List.foldl_cons, List.foldl_nil, Nat.zero_mod, Nat.mod_self,
    List.getD_cons_zero, hstep]

/-- A two-vertex ring is never reported as containing: the two non-degenerate
edge-steps traverse the same segment in opposite directions, and the toggle
condition is orientation-independent, so the flag is toggled an even number of
times. -/
lemma ray_pair (lng lat : ℚ) (v0 v1 : ℚ × ℚ) :
    isPointInPolygon lng lat [v0, v1] = some false := by
  have h00 : edgeStep lng lat false v0 v0 = false := by
    rw [edgeStep_eq_xor, specToggle_self, Bool.xor_false]
  unfold isPointInPolygon
  simp only [List.length_cons, List.length_nil, List.range_succ, List.range_zero,
    List.foldl_append, List.foldl_cons, List.foldl_nil, Nat.zero_mod, Nat.mod_self,
    Nat.one_mod_eq_one, List.getD_cons_zero, List.getD_cons_succ]
  rw [h00, edgeStep_eq_xor, edgeStep_eq_xor, specToggle_symm lng lat v1 v0,
    Bool.false_xor, Bool.xor_self]

/-- Any nonempty ring with fewer than 3 vertices is never reported as
containing. -/
lemma ray_short (lng lat : ℚ) (ring : List (ℚ × ℚ)) (hne : ring ≠ [])
    (hlen : ring.length < 3) : isPointInPolygon lng lat ring = some false := by
  match ring, hlen with
  | [v], _ => exact ray_singleton lng lat v
  | [v0, v1], _ => exact ray_pair lng lat v0 v1
  | [], _ => exact absurd rfl hne

/-- A feature whose first ring exists and is not reported as containing is
skipped and the scan continues with the remaining features. -/
lemma findAreaGo_skip (lng lat : ℚ) (f : Feature) (rest : List Feature)
    (r : List (ℚ × ℚ)) (tl : List (List (ℚ × ℚ)))
    (hco : f.geometry.coordinates = r :: tl)
    (hray : isPointInPolygon lng lat r = some false) :
    findAreaGo lng lat (f :: rest) = findAreaGo lng lat rest := by
  simp only [findAreaGo, hco, hray]

/-- A feature whose first ring is reported as containing ends the scan with
that feature's name. -/
lemma findAreaGo_hit (lng lat : ℚ) (f : Feature) (rest : List Feature)
    (r : List (ℚ × ℚ)) (tl : List (List (ℚ × ℚ)))
    (hco : f.geometry.coordinates = r :: tl)
    (hray : isPointInPolygon lng lat r = some true) :
    findAreaGo lng lat (f :: rest) = some f.properties.name := by
  simp only [findAreaGo, hco, hray]

/-- On datasets whose features all have a nonempty first ring, the source's
feature scan returns exactly the name component of the specification's
`locate`. -/
lemma findAreaGo_locateSpec (lng lat : ℚ) (ds : List SpecFeature)
    (h : ∀ f ∈ ds, ∃ r rs, f.coordinates = r :: rs ∧ r ≠ []) :
    findAreaGo lng lat (ds.map eraseId) = some (locateSpec lng lat ds).1 := by
  induction ds with
  | nil => rfl
  | cons f rest ih =>
    obtain ⟨r, rs, hco, hne⟩ := h f (List.mem_cons_self f rest)
    have hrest : ∀ g ∈ rest, ∃ r' rs', g.coordinates = r' :: rs' ∧ r' ≠ [] :=
      fun g hg => h g (List.mem_cons_of_mem f hg)
    have hgeo : (eraseId f).geometry.coordinates = r :: rs := hco
    by_cases hlen : r.length < 3
    · have hray : isPointInPolygon lng lat r = some false := ray_short lng lat r hne hlen
      have hcon : specContains lng lat f = false := by
        simp [specContains, hco, hlen]
      rw [List.map_cons, findAreaGo_skip lng lat (eraseId f) (rest.map eraseId) r rs hgeo hray,
        ih hrest]
      simp [locateSpec, hcon]
    · have hray : isPointInPolygon lng lat r = some (specRayCast lng lat r) :=
        ray_eq_spec lng lat r hne
      have hcon : specContains lng lat f = specRayCast lng lat r := by
        simp [specContains, hco, hlen]
      cases hrc : specRayCast lng lat r with
      | true =>
        rw [List.map_cons, findAreaGo_hit lng lat (eraseId f) (rest.map eraseId) r rs hgeo
          (by rw [hray, hrc])]
        simp [locateSpec, hcon, hrc, eraseId]
      | false =>
        rw [List.map_cons, findAreaGo_skip lng lat (eraseId f) (rest.map eraseId) r rs hgeo
          (by rw [hray, hrc]), ih hrest]
        simp [locateSpec, hcon, hrc]

/-! ## Concrete fixtures -/

/-- Unit test ring: an axis-aligned square with corners (0,0) and (2,2). -/
def unitSquare : List (ℚ × ℚ) := [(0, 0), (2, 0), (2, 2), (0, 2)]

/-- A larger square containing `unitSquare` entirely. -/
def bigSquare : List (ℚ × ℚ) := [(-10, -10), (10, -10), (10, 10), (-10, 10)]

/-- The "Sabian" boundary ring of spec §8 scenario 1, as (lng, lat) pairs:
41.80, 9.59, 41.90, 9.65 written via `mkRat` so that kernel evaluation can
reduce them (the decimal-literal forms are proved equal below). -/
def sabianRing : List (ℚ × ℚ) :=
  [(mkRat 418 10, mkRat 959 100), (mkRat 419 10, mkRat 959 100),
   (mkRat 419 10, mkRat 965 100), (mkRat 418 10, mkRat 965 100)]

-- the `mkRat` forms denote exactly the decimal coordinates of the spec
example : sabianRing = [(41.80, 9.59), (41.90, 9.59), (41.90, 9.65), (41.80, 9.65)] := by
  norm_num [sabianRing, mkRat]

/-- Spec-level "Sabian" region with id "area-1" (spec §8 scenario 1). -/
def sabianSpec : SpecFeature := ⟨"Sabian", "area-1", [sabianRing]⟩

/-- The same region with an empty id, as in an older dataset variant. -/
def sabianNoId : SpecFeature := ⟨"Sabian", "", [sabianRing]⟩

/-- Spec-level single-region dataset distinguished from `dsIdTwo` only by id. -/
def dsIdOne : List SpecFeature := [⟨"Alpha", "id-1", [unitSquare]⟩]

/-- Spec-level single-region dataset distinguished from `dsIdOne` only by id. -/
def dsIdTwo : List SpecFeature := [⟨"Alpha", "id-2", [unitSquare]⟩]

/-- Parsed feature on `unitSquare` named "Inner". -/
def fInner : Feature := ⟨⟨"Inner"⟩, ⟨[unitSquare], "Polygon"⟩, "Feature"⟩

/-- Parsed feature on `bigSquare` named "Outer". -/
def fOuter : Feature := ⟨⟨"Outer"⟩, ⟨[bigSquare], "Polygon"⟩, "Feature"⟩

/-- Parsed feature with an empty coordinates list (no ring at all). -/
def fNoRing : Feature := ⟨⟨"Broken"⟩, ⟨[], "Polygon"⟩, "Feature"⟩

/-- Parsed feature with a two-vertex (degenerate) first ring. -/
def fTwoVertex : Feature := ⟨⟨"Degenerate"⟩, ⟨[[(0, 0), (2, 0)]], "Polygon"⟩, "Feature"⟩

/-- Parsed feature on `unitSquare` whose name is the empty string. -/
def fNoName : Feature := ⟨⟨""⟩, ⟨[unitSquare], "Polygon"⟩, "Feature"⟩

/-! ## Claims -/

/-- Claim C1: the point-in-polygon test implements the specified ray-casting
algorithm exactly — `N + 1` edge-steps with wrapping index `i mod N` from
vertex 0, the stated toggle condition with the interpolated `xIntersect`, and
the final flag as the containment result (for any nonempty ring; on an empty
ring the source faults on `polygon[0]`). -/
theorem C1_raycast_exact (lng lat : ℚ) (ring : List (ℚ × ℚ)) (h : ring ≠ []) :
    isPointInPolygon lng lat ring = some (specRayCast lng lat ring) :=
  ray_eq_spec lng lat ring h

/-- Witness for C1 on a concrete triangle. -/
theorem C1_witness :
    ([(0, 0), (2, 0), (1, 2)] : List (ℚ × ℚ)) ≠ [] ∧
    isPointInPolygon 1 1 [(0, 0), (2, 0), (1, 2)]
      = some (specRayCast 1 1 [(0, 0), (2, 0), (1, 2)]) :=
  ⟨by decide, C1_raycast_exact 1 1 [(0, 0), (2, 0), (1, 2)] (by decide)⟩

/-- Claim C2, counterexample: the claim says the lookup returns both the name
and the id of the first containing region. The revision in src parses no id
(`Feature` has only `name`) and returns a single string: two datasets that
differ only in the first region's id produce identical lookup results, while
the specified `locate` outputs differ — so the lookup does not return the id. -/
theorem C2_counterexample :
    findArea (Resource.ok (fcOf dsIdOne)) 1 1 = findArea (Resource.ok (fcOf dsIdTwo)) 1 1 ∧
    findArea (Resource.ok (fcOf dsIdOne)) 1 1 = some "Alpha" ∧
    locateSpec 1 1 dsIdOne = ("Alpha", "id-1") ∧
    locateSpec 1 1 dsIdTwo = ("Alpha", "id-2") := by
  refine ⟨rfl, by decide, by decide, by decide⟩

/-- Claim C2, amended: on datasets whose regions all have a nonempty first
ring, the lookup returns exactly the name component of the specified `locate`
(first containing region in dataset order, `""` when none); no id is parsed or
returned by this revision. -/
theorem C2_first_match_name (lng lat : ℚ) (ds : List SpecFeature)
    (h : ∀ f ∈ ds, ∃ r rs, f.coordinates = r :: rs ∧ r ≠ []) :
    findArea (Resource.ok (fcOf ds)) lng lat = some (locateSpec lng lat ds).1 :=
  findAreaGo_locateSpec lng lat ds h

/-- Witness for C2 on the one-region dataset `dsIdOne`. -/
theorem C2_witness :
    (∀ f ∈ dsIdOne, ∃ r rs, f.coordinates = r :: rs ∧ r ≠ []) ∧
    findArea (Resource.ok (fcOf dsIdOne)) 1 1 = some (locateSpec 1 1 dsIdOne).1 := by
  have h : ∀ f ∈ dsIdOne, ∃ r rs, f.coordinates = r :: rs ∧ r ≠ [] := by
    intro f hf
    rw [dsIdOne, List.mem_singleton] at hf
    subst hf
    exact ⟨unitSquare, [], rfl, by decide⟩
  exact ⟨h, C2_first_match_name 1 1 dsIdOne h⟩

/-- Claim C3: dataset order alone determines priority — when a region A occurs
earlier than a region B and both boundaries contain the point (and everything
before A has a first ring that does not contain it), the lookup returns A's
name, whatever B holds. -/
theorem C3_dataset_order_priority (lng lat : ℚ) (pre mid post : List Feature)
    (A B : Feature) (rA : List (ℚ × ℚ)) (tlA : List (List (ℚ × ℚ)))
    (rB : List (ℚ × ℚ)) (tlB : List (List (ℚ × ℚ))) (t : String)
    (hA : A.geometry.coordinates = rA :: tlA)
    (hAin : isPointInPolygon lng lat rA = some true)
    (hB : B.geometry.coordinates = rB :: tlB)
    (hBin : isPointInPolygon lng lat rB = some true)
    (hpre : ∀ f ∈ pre, ∃ rf tlf, f.geometry.coordinates = rf :: tlf ∧
      isPointInPolygon lng lat rf = some false) :
    findArea (Resource.ok ⟨pre ++ A :: (mid ++ B :: post), t⟩) lng lat
      = some A.properties.name := by
  show findAreaGo lng lat (pre ++ A :: (mid ++ B :: post)) = some A.properties.name
  induction pre with
  | nil =>
    exact findAreaGo_hit lng lat A (mid ++ B :: post) rA tlA hA hAin
  | cons g gs ih =>
    obtain ⟨rg, tlg, hg, hgin⟩ := hpre g (List.mem_cons_self g gs)
    rw [List.cons_append, findAreaGo_skip lng lat g (gs ++ A :: (mid ++ B :: post)) rg tlg hg hgin]
    exact ih (fun f hf => hpre f (List.mem_cons_of_mem g hf))

/-- Witness for C3: `fInner` (earlier) and `fOuter` (later) both contain
(1, 1); the lookup returns "Inner". -/
theorem C3_witness :
    fInner.geometry.coordinates = unitSquare :: [] ∧
    isPointInPolygon 1 1 unitSquare = some true ∧
    fOuter.geometry.coordinates = bigSquare :: [] ∧
    isPointInPolygon 1 1 bigSquare = some true ∧
    findArea (Resource.ok ⟨[] ++ fInner :: ([] ++ fOuter :: []), "FeatureCollection"⟩) 1 1
      = some fInner.properties.name := by
  refine ⟨rfl, by decide, rfl, by decide, ?_⟩
  exact C3_dataset_order_priority 1 1 [] [] [] fInner fOuter unitSquare [] bigSquare []
    "FeatureCollection" rfl (by decide) rfl (by decide) (by intro f hf; cases hf)

/-- Claim C4, counterexample: a region with a missing first ring (empty
`coordinates`) makes `findArea` fault on `Coordinates[0]` (modelled `none`),
aborting the whole lookup even though a later region contains the point — the
claim's "continues processing the remaining regions without aborting" fails.
The same happens for an empty first ring, which faults on `polygon[0]`. -/
theorem C4_counterexample :
    findArea (Resource.ok ⟨[fNoRing, fInner], "FeatureCollection"⟩) 1 1 = none ∧
    findArea (Resource.ok ⟨[⟨⟨"EmptyRing"⟩, ⟨[[]], "Polygon"⟩, "Feature"⟩, fInner],
      "FeatureCollection"⟩) 1 1 = none ∧
    isPointInPolygon 1 1 unitSquare = some true := by
  refine ⟨rfl, rfl, by decide⟩

/-- Claim C4, amended: a region whose first ring exists but has fewer than 3
vertices is treated as non-matching and the lookup continues with the remaining
regions; a region whose first ring is empty or missing instead aborts the
lookup (Go index-out-of-range panic). -/
theorem C4_short_ring_skipped (lng lat : ℚ) (f : Feature) (rest : List Feature)
    (r : List (ℚ × ℚ)) (tl : List (List (ℚ × ℚ))) (t : String)
    (hco : f.geometry.coordinates = r :: tl) (hne : r ≠ []) (hlen : r.length < 3) :
    findArea (Resource.ok ⟨f :: rest, t⟩) lng lat
      = findArea (Resource.ok ⟨rest, t⟩) lng lat := by
  show findAreaGo lng lat (f :: rest) = findAreaGo lng lat rest
  exact findAreaGo_skip lng lat f rest r tl hco (ray_short lng lat r hne hlen)

/-- Witness for C4: the two-vertex region is skipped and the scan reaches the
remaining dataset. -/
theorem C4_witness :
    fTwoVertex.geometry.coordinates = [(0, 0), (2, 0)] :: [] ∧
    ([(0, 0), (2, 0)] : List (ℚ × ℚ)) ≠ [] ∧
    ([(0, 0), (2, 0)] : List (ℚ × ℚ)).length < 3 ∧
    findArea (Resource.ok ⟨fTwoVertex :: [fInner], "FeatureCollection"⟩) 1 1
      = findArea (Resource.ok ⟨[fInner], "FeatureCollection"⟩) 1 1 :=
  ⟨rfl, by decide, by decide,
    C4_short_ring_skipped 1 1 fTwoVertex [fInner] [(0, 0), (2, 0)] [] "FeatureCollection"
      rfl (by decide) (by decide)⟩

/-- Claim C5: when the backing resource cannot be read or fails to parse, the
lookup returns the empty-string no-match result for every coordinate; no error
reaches the caller (the function returns normally, `some`). -/
theorem C5_failure_degrades_to_no_match (lng lat : ℚ) :
    findArea Resource.unreadable lng lat = some "" ∧
    findArea Resource.malformed lng lat = some "" :=
  ⟨rfl, rfl⟩

/-- Claim C6: on the empty feature collection, the lookup returns the
empty-name sentinel for every coordinate. -/
theorem C6_empty_dataset_no_match (lng lat : ℚ) (t : String) :
    findArea (Resource.ok ⟨[], t⟩) lng lat = some "" :=
  rfl

/-- Claim C7: a region whose first ring has exactly 2 vertices never crashes
the test, is reported as not containing any point (the two edge-steps traverse
the same segment in both directions, toggling evenly), and the lookup proceeds
to the later regions. -/
theorem C7_two_vertex_ring_skipped (lng lat : ℚ) (v0 v1 : ℚ × ℚ) (f : Feature)
    (rest : List Feature) (tl : List (List (ℚ × ℚ))) (t : String)
    (hco : f.geometry.coordinates = [v0, v1] :: tl) :
    isPointInPolygon lng lat [v0, v1] = some false ∧
    findArea (Resource.ok ⟨f :: rest, t⟩) lng lat
      = findArea (Resource.ok ⟨rest, t⟩) lng lat := by
  refine ⟨ray_pair lng lat v0 v1, ?_⟩
  show findAreaGo lng lat (f :: rest) = findAreaGo lng lat rest
  exact findAreaGo_skip lng lat f rest [v0, v1] tl hco (ray_pair lng lat v0 v1)

/-- Witness for C7 on `fTwoVertex` followed by a valid region. -/
theorem C7_witness :
    fTwoVertex.geometry.coordinates = [(0, 0), (2, 0)] :: [] ∧
    (isPointInPolygon 3 7 [(0, 0), (2, 0)] = some false ∧
      findArea (Resource.ok ⟨fTwoVertex :: [fOuter], "FeatureCollection"⟩) 3 7
        = findArea (Resource.ok ⟨[fOuter], "FeatureCollection"⟩) 3 7) :=
  ⟨rfl, C7_two_vertex_ring_skipped 3 7 (0, 0) (2, 0) fTwoVertex [fOuter] [] "FeatureCollection" rfl⟩

/-- Claim C8, counterexample: the claim says `locate(41.85, 9.62)` on the
"Sabian"/"area-1" dataset returns the pair ("Sabian", "area-1"). The revision
in src returns the single string "Sabian" and no id: the lookup result is
identical to the one for the same dataset with an empty id, while the specified
outputs differ — the id "area-1" is not part of the lookup's output. -/
theorem C8_counterexample :
    findArea (Resource.ok (fcOf [sabianSpec])) 41.85 9.62
      = findArea (Resource.ok (fcOf [sabianNoId])) 41.85 9.62 ∧
    locateSpec 41.85 9.62 [sabianSpec] = ("Sabian", "area-1") ∧
    locateSpec 41.85 9.62 [sabianNoId] = ("Sabian", "") := by
  have h1 : (41.85 : ℚ) = mkRat 4185 100 := by norm_num [mkRat]
  have h2 : (9.62 : ℚ) = mkRat 962 100 := by norm_num [mkRat]
  rw [h1, h2]
  refine ⟨rfl, by decide, by decide⟩

/-- Claim C8, amended: on the "Sabian" square dataset of spec §8 scenario 1,
the lookup of (lng 41.85, lat 9.62) returns the name "Sabian"; the id is not
returned by this revision. -/
theorem C8_sabian_lookup :
    findArea (Resource.ok (fcOf [sabianSpec])) 41.85 9.62 = some "Sabian" := by
  have h1 : (41.85 : ℚ) = mkRat 4185 100 := by norm_num [mkRat]
  have h2 : (9.62 : ℚ) = mkRat 962 100 := by norm_num [mkRat]
  rw [h1, h2]
  decide

/-- Claim C9: the lookup is deterministic — identical coordinates and identical
backing resource content give identical results (the lookup is a pure function
of the resource state and the coordinate). -/
theorem C9_deterministic (res₁ res₂ : Resource) (lng₁ lng₂ lat₁ lat₂ : ℚ)
    (hres : res₁ = res₂) (hlng : lng₁ = lng₂) (hlat : lat₁ = lat₂) :
    findArea res₁ lng₁ lat₁ = findArea res₂ lng₂ lat₂ := by
  subst hres
  subst hlng
  subst hlat
  rfl

/-- Witness for C9 on a concrete repeated call. -/
theorem C9_witness :
    (Resource.ok (fcOf [sabianSpec]) = Resource.ok (fcOf [sabianSpec])) ∧
    ((41.85 : ℚ) = 41.85) ∧ ((9.62 : ℚ) = 9.62) ∧
    findArea (Resource.ok (fcOf [sabianSpec])) 41.85 9.62
      = findArea (Resource.ok (fcOf [sabianSpec])) 41.85 9.62 :=
  ⟨rfl, rfl, rfl,
    C9_deterministic (Resource.ok (fcOf [sabianSpec])) (Resource.ok (fcOf [sabianSpec]))
      41.85 41.85 9.62 9.62 rfl rfl rfl⟩

/-- Claim C10: the empty-string result is ambiguous as a no-match sentinel — a
dataset whose only feature has an empty name but a first ring containing the
query point yields the same `some ""` as the empty dataset, and the feature is
not rejected for lacking the required name. -/
theorem C10_empty_name_ambiguous :
    isPointInPolygon 1 1 unitSquare = some true ∧
    findArea (Resource.ok ⟨[fNoName], "FeatureCollection"⟩) 1 1 = some "" ∧
    findArea (Resource.ok ⟨[], "FeatureCollection"⟩) 1 1 = some "" := by
  refine ⟨by decide, rfl, rfl⟩
